import Mathlib

/-!
Verification of the Unit-of-Work wrapper (`db/unitofwork.go`).

The wrapper delegates all data access to an external collaborator (the sqlx
`DB`/`Tx` handles).  We model that collaborator as an abstract `Store` of
functions indexed by the dispatch `Target` (connection or transaction
handle).  Each method of `unitOfWork` is transcribed from the Go source; it
returns its Go result, the post-state of the receiver (the Go methods take a
pointer receiver, so the embedding threads the receiver explicitly), and a
trace of the calls it issued to the collaborator, so that dispatch and
settlement behaviour are observable.  Go panics are modelled with `Except`:
`Except.error p` is a panic carrying value `p`.
-/

namespace Db

abbrev Error := String
abbrev PanicVal := String
abbrev Qry := String
abbrev Arg := String
abbrev Dest := String
abbrev Rows := Nat
abbrev NativeResult := Nat
abbrev ConnId := Nat
abbrev TxId := Nat
abbrev Value := Option String

/-- A dispatch target: the shared connection (`u.db`) or a transaction
handle (`u.tx`). -/
inductive Target where
  | conn (c : ConnId)
  | txn (t : TxId)
deriving DecidableEq, Repr

/-- Observable events: calls issued to the collaborator and the
`log.Println` of each settlement outcome. -/
inductive Event where
  | beganTx (t : TxId)
  | committedTx (t : TxId) (out : Option Error)
  | rolledBackTx (t : TxId) (out : Option Error)
  | logged (out : Option Error)
  | namedExecCall (tgt : Target) (q : Qry) (a : Arg)
  | queryCall (tgt : Target) (q : Qry) (args : List Arg)
  | selectCall (tgt : Target) (d : Dest) (q : Qry) (args : List Arg)
  | namedQueryCall (tgt : Target) (q : Qry) (a : Arg)
  | mustExecCall (tgt : Target) (q : Qry) (args : List Arg)
  | getCall (tgt : Target) (d : Dest) (q : Qry) (args : List Arg)
deriving DecidableEq, Repr

def Event.isCommit : Event → Bool
  | Event.committedTx _ _ => true
  | _ => false

def Event.isRollback : Event → Bool
  | Event.rolledBackTx _ _ => true
  | _ => false

/-- The capability required from the data-access collaborator
(sqlx `DB`/`Tx`): each operation answers for a given dispatch target.
`beginTx` is indexed by an invocation counter so distinct begins may
yield distinct handles; `Except.error` models a panic of the `Must`
variants. -/
structure Store where
  beginTx : Nat → Except Error TxId
  commitTx : TxId → Option Error
  rollbackTx : TxId → Option Error
  namedExec : Target → Qry → Arg → Except Error NativeResult
  queryx : Target → Qry → List Arg → Except Error Rows
  selectAll : Target → Dest → Qry → List Arg → Option Error
  namedQueryOp : Target → Qry → Arg → Except Error Rows
  mustExecOp : Target → Qry → List Arg → Except Error NativeResult
  getOne : Target → Dest → Qry → List Arg → Option Error

/-- `resultSet` from the source: the adapter behind a failed
`MustNamedExec`. -/
structure resultSet where
  rowsAffected : Int
  err : Option Error
deriving DecidableEq, Repr

def resultSet.LastInsertId (r : resultSet) : Int × Option Error :=
  (r.rowsAffected, r.err)

def resultSet.RowsAffected (r : resultSet) : Int × Option Error :=
  (r.rowsAffected, r.err)

/-- A `sql.Result`: either the collaborator's native result or the
adapter. -/
inductive SqlResult where
  | native (r : NativeResult)
  | adapter (rs : resultSet)
deriving DecidableEq, Repr

/-- The `unitOfWork` struct: the shared connection and the optional
transaction handle. -/
structure unitOfWork where
  db : ConnId
  tx : Option TxId
deriving DecidableEq, Repr

/-- `NewUnitOfWork` factory. -/
def NewUnitOfWork (db : ConnId) (tx : Option TxId) : unitOfWork :=
  { db := db, tx := tx }

/-- The message of `errors.New` used by `begin`, `Commit` and
`Rollback`. -/
def noTxMsg : PanicVal := "Nenhuma transação foi iniciada."

def unitOfWork.MustNamedExec (s : Store) (u : unitOfWork) (q : Qry)
    (a : Arg) : SqlResult × unitOfWork × List Event :=
  match u.tx with
  | some t =>
    match s.namedExec (Target.txn t) q a with
    | Except.error e =>
      (SqlResult.adapter { rowsAffected := 0, err := some e }, u,
        [Event.namedExecCall (Target.txn t) q a])
    | Except.ok res =>
      (SqlResult.native res, u, [Event.namedExecCall (Target.txn t) q a])
  | none =>
    match s.namedExec (Target.conn u.db) q a with
    | Except.error e =>
      (SqlResult.adapter { rowsAffected := 0, err := some e }, u,
        [Event.namedExecCall (Target.conn u.db) q a])
    | Except.ok res =>
      (SqlResult.native res, u, [Event.namedExecCall (Target.conn u.db) q a])

def unitOfWork.Query (s : Store) (u : unitOfWork) (q : Qry)
    (args : List Arg) : Except Error Rows × unitOfWork × List Event :=
  match u.tx with
  | some t =>
    (s.queryx (Target.txn t) q args, u, [Event.queryCall (Target.txn t) q args])
  | none =>
    (s.queryx (Target.conn u.db) q args, u,
      [Event.queryCall (Target.conn u.db) q args])

def unitOfWork.Select (s : Store) (u : unitOfWork) (d : Dest) (q : Qry)
    (args : List Arg) : Option Error × unitOfWork × List Event :=
  match u.tx with
  | some t =>
    (s.selectAll (Target.txn t) d q args, u,
      [Event.selectCall (Target.txn t) d q args])
  | none =>
    (s.selectAll (Target.conn u.db) d q args, u,
      [Event.selectCall (Target.conn u.db) d q args])

def unitOfWork.NamedQuery (s : Store) (u : unitOfWork) (q : Qry)
    (a : Arg) : Except Error Rows × unitOfWork × List Event :=
  match u.tx with
  | some t =>
    (s.namedQueryOp (Target.txn t) q a, u,
      [Event.namedQueryCall (Target.txn t) q a])
  | none =>
    (s.namedQueryOp (Target.conn u.db) q a, u,
      [Event.namedQueryCall (Target.conn u.db) q a])

def unitOfWork.MustExec (s : Store) (u : unitOfWork) (q : Qry)
    (args : List Arg) : Except Error NativeResult × unitOfWork × List Event :=
  match u.tx with
  | some t =>
    (s.mustExecOp (Target.txn t) q args, u,
      [Event.mustExecCall (Target.txn t) q args])
  | none =>
    (s.mustExecOp (Target.conn u.db) q args, u,
      [Event.mustExecCall (Target.conn u.db) q args])

def unitOfWork.Get (s : Store) (u : unitOfWork) (d : Dest) (q : Qry)
    (args : List Arg) : Option Error × unitOfWork × List Event :=
  match u.tx with
  | some t =>
    (s.getOne (Target.txn t) d q args, u,
      [Event.getCall (Target.txn t) d q args])
  | none =>
    (s.getOne (Target.conn u.db) d q args, u,
      [Event.getCall (Target.conn u.db) d q args])

/-- `begin`: `u.tx = u.db.MustBegin()`; `MustBegin` panics on failure
(before the assignment, so the receiver is unchanged then). -/
def unitOfWork.begin (s : Store) (n : Nat) (u : unitOfWork) :
    Except PanicVal unitOfWork × List Event :=
  match s.beginTx n with
  | Except.error e => (Except.error e, [])
  | Except.ok t => (Except.ok { u with tx := some t }, [Event.beganTx t])

/-- `Commit`: panics with `noTxMsg` when no transaction is active;
otherwise commits the handle, clears `tx` on success and on failure,
and returns the collaborator's error. -/
def unitOfWork.Commit (s : Store) (u : unitOfWork) :
    Except PanicVal (Option Error) × unitOfWork × List Event :=
  match u.tx with
  | none => (Except.error noTxMsg, u, [])
  | some t =>
    match s.commitTx t with
    | some e =>
      (Except.ok (some e), { u with tx := none }, [Event.committedTx t (some e)])
    | none => (Except.ok none, { u with tx := none }, [Event.committedTx t none])

/-- `Rollback`: same shape as `Commit`. -/
def unitOfWork.Rollback (s : Store) (u : unitOfWork) :
    Except PanicVal (Option Error) × unitOfWork × List Event :=
  match u.tx with
  | none => (Except.error noTxMsg, u, [])
  | some t =>
    match s.rollbackTx t with
    | some e =>
      (Except.ok (some e), { u with tx := none },
        [Event.rolledBackTx t (some e)])
    | none =>
      (Except.ok none, { u with tx := none }, [Event.rolledBackTx t none])

/-- Outcome of the caller-supplied work function: a normal
`(value, error)` return or a panic. -/
inductive WorkOutcome where
  | ret (v : Value) (e : Option Error)
  | panics (p : PanicVal)
deriving DecidableEq, Repr

/-- Outcome of `InTransaction` as the caller observes it. -/
inductive ITResult where
  | ret (v : Value) (e : Option Error)
  | panicked (p : PanicVal)
deriving DecidableEq, Repr

/-- `InTransaction`: begin (panic propagates, the deferred recover is not
yet installed); run the work function on the now-active receiver; on a
panic from it, roll back, log the outcome and re-panic the original value;
on a normal return, commit when the error is nil and roll back otherwise,
log the outcome, and return the work function's own pair.  The work
function is modelled as an observation of the active receiver: the
query/exec operations it may issue do not mutate the receiver (see the
frame theorem), and the settlement calls are inlined at the active handle,
where `Commit`/`Rollback` cannot panic. -/
def unitOfWork.InTransaction (s : Store) (n : Nat)
    (work : unitOfWork → WorkOutcome) (u : unitOfWork) :
    ITResult × unitOfWork × List Event :=
  match s.beginTx n with
  | Except.error e => (ITResult.panicked e, u, [])
  | Except.ok t =>
    match work { u with tx := some t } with
    | WorkOutcome.panics p =>
      (ITResult.panicked p, { u with tx := none },
        [Event.beganTx t, Event.rolledBackTx t (s.rollbackTx t),
          Event.logged (s.rollbackTx t)])
    | WorkOutcome.ret v none =>
      (ITResult.ret v none, { u with tx := none },
        [Event.beganTx t, Event.committedTx t (s.commitTx t),
          Event.logged (s.commitTx t)])
    | WorkOutcome.ret v (some e) =>
      (ITResult.ret v (some e), { u with tx := none },
        [Event.beganTx t, Event.rolledBackTx t (s.rollbackTx t),
          Event.logged (s.rollbackTx t)])

/-- The dispatch rule of the spec: the transaction handle when one is
active, the shared connection otherwise. -/
def dispatchTarget (u : unitOfWork) : Target :=
  match u.tx with
  | some t => Target.txn t
  | none => Target.conn u.db

/-- A concrete collaborator used to evaluate the theorems on concrete
inputs: begin number `n` yields handle `n + 1`, every call succeeds. -/
def s0 : Store :=
  { beginTx := fun n => Except.ok (n + 1)
    commitTx := fun _ => none
    rollbackTx := fun _ => none
    namedExec := fun _ _ _ => Except.ok 7
    queryx := fun _ _ _ => Except.ok 3
    selectAll := fun _ _ _ _ => none
    namedQueryOp := fun _ _ _ => Except.ok 4
    mustExecOp := fun _ _ _ => Except.ok 5
    getOne := fun _ _ _ _ => none }

/-- C1: every query/exec operation of the Unit of Work (MustNamedExec,
Query, Select, NamedQuery, MustExec, Get) issues exactly one call to the
collaborator, at `dispatchTarget u`: the transaction handle when
`u.tx = some t` and the shared connection when `u.tx = none` (which is the
definition of `dispatchTarget`); for the non-adapter operations the result
returned is the collaborator's answer at that target. -/
theorem C1_dispatch_rule (s : Store) (u : unitOfWork) (q : Qry) (a : Arg)
    (d : Dest) (args : List Arg) :
    (u.MustNamedExec s q a).2.2 = [Event.namedExecCall (dispatchTarget u) q a] ∧
    u.Query s q args =
      (s.queryx (dispatchTarget u) q args, u,
        [Event.queryCall (dispatchTarget u) q args]) ∧
    u.Select s d q args =
      (s.selectAll (dispatchTarget u) d q args, u,
        [Event.selectCall (dispatchTarget u) d q args]) ∧
    u.NamedQuery s q a =
      (s.namedQueryOp (dispatchTarget u) q a, u,
        [Event.namedQueryCall (dispatchTarget u) q a]) ∧
    u.MustExec s q args =
      (s.mustExecOp (dispatchTarget u) q args, u,
        [Event.mustExecCall (dispatchTarget u) q args]) ∧
    u.Get s d q args =
      (s.getOne (dispatchTarget u) d q args, u,
        [Event.getCall (dispatchTarget u) d q args]) := by
  have hmn : (u.MustNamedExec s q a).2.2 =
      [Event.namedExecCall (dispatchTarget u) q a] := by
    cases htx : u.tx with
    | none =>
      cases h : s.namedExec (Target.conn u.db) q a <;>
        simp [unitOfWork.MustNamedExec, dispatchTarget, htx, h]
    | some t =>
      cases h : s.namedExec (Target.txn t) q a <;>
        simp [unitOfWork.MustNamedExec, dispatchTarget, htx, h]
  refine ⟨hmn, ?_, ?_, ?_, ?_, ?_⟩ <;>
    cases htx : u.tx <;>
      simp [unitOfWork.Query, unitOfWork.Select, unitOfWork.NamedQuery,
        unitOfWork.MustExec, unitOfWork.Get, dispatchTarget, htx]

/-- C10: no query/exec operation changes the receiver (both `db` and `tx`
are unchanged); `Commit`, `Rollback`, `InTransaction` and `begin` never
reassign the connection reference `db`. -/
theorem C10_frame (s : Store) (u : unitOfWork) (q : Qry) (a : Arg)
    (d : Dest) (args : List Arg) (n : Nat)
    (work : unitOfWork → WorkOutcome) :
    (u.MustNamedExec s q a).2.1 = u ∧
    (u.Query s q args).2.1 = u ∧
    (u.Select s d q args).2.1 = u ∧
    (u.NamedQuery s q a).2.1 = u ∧
    (u.MustExec s q args).2.1 = u ∧
    (u.Get s d q args).2.1 = u ∧
    (u.Commit s).2.1.db = u.db ∧
    (u.Rollback s).2.1.db = u.db ∧
    (u.InTransaction s n work).2.1.db = u.db ∧
    (∀ u' evs, u.begin s n = (Except.ok u', evs) → u'.db = u.db) := by
  refine ⟨?_, ?_, ?_, ?_, ?_, ?_, ?_, ?_, ?_, ?_⟩
  · cases htx : u.tx with
    | none =>
      cases h : s.namedExec (Target.conn u.db) q a <;>
        simp [unitOfWork.MustNamedExec, htx, h]
    | some t =>
      cases h : s.namedExec (Target.txn t) q a <;>
        simp [unitOfWork.MustNamedExec, htx, h]
  · cases htx : u.tx <;> simp [unitOfWork.Query, htx]
  · cases htx : u.tx <;> simp [unitOfWork.Select, htx]
  · cases htx : u.tx <;> simp [unitOfWork.NamedQuery, htx]
  · cases htx : u.tx <;> simp [unitOfWork.MustExec, htx]
  · cases htx : u.tx <;> simp [unitOfWork.Get, htx]
  · cases htx : u.tx with
    | none => simp [unitOfWork.Commit, htx]
    | some t => cases hc : s.commitTx t <;> simp [unitOfWork.Commit, htx, hc]
  · cases htx : u.tx with
    | none => simp [unitOfWork.Rollback, htx]
    | some t =>
      cases hr : s.rollbackTx t <;> simp [unitOfWork.Rollback, htx, hr]
  · cases hb : s.beginTx n with
    | error e => simp [unitOfWork.InTransaction, hb]
    | ok t =>
      cases hw : work { u with tx := some t } with
      | panics p => simp [unitOfWork.InTransaction, hb, hw]
      | ret v e =>
        cases e <;> simp [unitOfWork.InTransaction, hb, hw]
  · intro u' evs hbe
    cases hb : s.beginTx n with
    | error e => simp [unitOfWork.begin, hb] at hbe
    | ok t =>
      simp [unitOfWork.begin, hb] at hbe
      rw [← hbe.1]

/-- C2: when the work function returns `(v, nil)`, `InTransaction` commits
exactly once, never rolls back, and returns `(v, nil)`. -/
theorem C2_success_commits (s : Store) (n : Nat) (u : unitOfWork)
    (work : unitOfWork → WorkOutcome) (t : TxId) (v : Value)
    (hb : s.beginTx n = Except.ok t)
    (hw : work { u with tx := some t } = WorkOutcome.ret v none) :
    (u.InTransaction s n work).1 = ITResult.ret v none ∧
    ((u.InTransaction s n work).2.2).countP Event.isCommit = 1 ∧
    ((u.InTransaction s n work).2.2).countP Event.isRollback = 0 := by
  have h : u.InTransaction s n work =
      (ITResult.ret v none, { u with tx := none },
        [Event.beganTx t, Event.committedTx t (s.commitTx t),
          Event.logged (s.commitTx t)]) := by
    simp [unitOfWork.InTransaction, hb, hw]
  rw [h]
  exact ⟨rfl, rfl, rfl⟩

theorem C2_success_commits_witness :
    ((NewUnitOfWork 0 none).InTransaction s0 0
        (fun _ => WorkOutcome.ret (some "v") none)).1 =
      ITResult.ret (some "v") none ∧
    (((NewUnitOfWork 0 none).InTransaction s0 0
        (fun _ => WorkOutcome.ret (some "v") none)).2.2).countP
        Event.isCommit = 1 ∧
    (((NewUnitOfWork 0 none).InTransaction s0 0
        (fun _ => WorkOutcome.ret (some "v") none)).2.2).countP
        Event.isRollback = 0 :=
  C2_success_commits s0 0 (NewUnitOfWork 0 none)
    (fun _ => WorkOutcome.ret (some "v") none) 1 (some "v") rfl rfl

/-- C3: when the work function returns `(nil, err)` with `err` non-nil,
`InTransaction` rolls back exactly once, never commits, and returns
`(nil, err)` unchanged. -/
theorem C3_error_rolls_back (s : Store) (n : Nat) (u : unitOfWork)
    (work : unitOfWork → WorkOutcome) (t : TxId) (err : Error)
    (hb : s.beginTx n = Except.ok t)
    (hw : work { u with tx := some t } = WorkOutcome.ret none (some err)) :
    (u.InTransaction s n work).1 = ITResult.ret none (some err) ∧
    ((u.InTransaction s n work).2.2).countP Event.isRollback = 1 ∧
    ((u.InTransaction s n work).2.2).countP Event.isCommit = 0 := by
  have h : u.InTransaction s n work =
      (ITResult.ret none (some err), { u with tx := none },
        [Event.beganTx t, Event.rolledBackTx t (s.rollbackTx t),
          Event.logged (s.rollbackTx t)]) := by
    simp [unitOfWork.InTransaction, hb, hw]
  rw [h]
  exact ⟨rfl, rfl, rfl⟩

theorem C3_error_rolls_back_witness :
    ((NewUnitOfWork 0 none).InTransaction s0 0
        (fun _ => WorkOutcome.ret none (some "boom"))).1 =
      ITResult.ret none (some "boom") ∧
    (((NewUnitOfWork 0 none).InTransaction s0 0
        (fun _ => WorkOutcome.ret none (some "boom"))).2.2).countP
        Event.isRollback = 1 ∧
    (((NewUnitOfWork 0 none).InTransaction s0 0
        (fun _ => WorkOutcome.ret none (some "boom"))).2.2).countP
        Event.isCommit = 0 :=
  C3_error_rolls_back s0 0 (NewUnitOfWork 0 none)
    (fun _ => WorkOutcome.ret none (some "boom")) 1 "boom" rfl rfl

/-- C4: when the work function panics with value `p`, `InTransaction`
attempts rollback exactly once, never commits, and re-raises exactly `p`,
whatever the rollback's own outcome `s.rollbackTx t` is. -/
theorem C4_panic_rollback_rethrow (s : Store) (n : Nat) (u : unitOfWork)
    (work : unitOfWork → WorkOutcome) (t : TxId) (p : PanicVal)
    (hb : s.beginTx n = Except.ok t)
    (hw : work { u with tx := some t } = WorkOutcome.panics p) :
    (u.InTransaction s n work).1 = ITResult.panicked p ∧
    ((u.InTransaction s n work).2.2).countP Event.isRollback = 1 ∧
    ((u.InTransaction s n work).2.2).countP Event.isCommit = 0 := by
  have h : u.InTransaction s n work =
      (ITResult.panicked p, { u with tx := none },
        [Event.beganTx t, Event.rolledBackTx t (s.rollbackTx t),
          Event.logged (s.rollbackTx t)]) := by
    simp [unitOfWork.InTransaction, hb, hw]
  rw [h]
  exact ⟨rfl, rfl, rfl⟩

theorem C4_panic_rollback_rethrow_witness :
    ((NewUnitOfWork 0 none).InTransaction s0 0
        (fun _ => WorkOutcome.panics "kaboom")).1 =
      ITResult.panicked "kaboom" ∧
    (((NewUnitOfWork 0 none).InTransaction s0 0
        (fun _ => WorkOutcome.panics "kaboom")).2.2).countP
        Event.isRollback = 1 ∧
    (((NewUnitOfWork 0 none).InTransaction s0 0
        (fun _ => WorkOutcome.panics "kaboom")).2.2).countP
        Event.isCommit = 0 :=
  C4_panic_rollback_rethrow s0 0 (NewUnitOfWork 0 none)
    (fun _ => WorkOutcome.panics "kaboom") 1 "kaboom" rfl rfl

/-- C5: when the work function returns normally with any pair `(v, e)`,
`InTransaction` returns exactly `(v, e)` — for every store, hence whatever
error the settling commit or rollback produces — and the settlement
outcome is only logged. -/
theorem C5_settlement_not_merged (s : Store) (n : Nat) (u : unitOfWork)
    (work : unitOfWork → WorkOutcome) (t : TxId) (v : Value)
    (e : Option Error)
    (hb : s.beginTx n = Except.ok t)
    (hw : work { u with tx := some t } = WorkOutcome.ret v e) :
    (u.InTransaction s n work).1 = ITResult.ret v e ∧
    ∃ out, Event.logged out ∈ (u.InTransaction s n work).2.2 := by
  cases e with
  | none =>
    have h : u.InTransaction s n work =
        (ITResult.ret v none, { u with tx := none },
          [Event.beganTx t, Event.committedTx t (s.commitTx t),
            Event.logged (s.commitTx t)]) := by
      simp [unitOfWork.InTransaction, hb, hw]
    rw [h]
    exact ⟨rfl, s.commitTx t, by simp⟩
  | some err =>
    have h : u.InTransaction s n work =
        (ITResult.ret v (some err), { u with tx := none },
          [Event.beganTx t, Event.rolledBackTx t (s.rollbackTx t),
            Event.logged (s.rollbackTx t)]) := by
      simp [unitOfWork.InTransaction, hb, hw]
    rw [h]
    exact ⟨rfl, s.rollbackTx t, by simp⟩

theorem C5_settlement_not_merged_witness :
    ((NewUnitOfWork 0 none).InTransaction s0 0
        (fun _ => WorkOutcome.ret (some "w") (some "e5"))).1 =
      ITResult.ret (some "w") (some "e5") ∧
    ∃ out, Event.logged out ∈
      ((NewUnitOfWork 0 none).InTransaction s0 0
        (fun _ => WorkOutcome.ret (some "w") (some "e5"))).2.2 :=
  C5_settlement_not_merged s0 0 (NewUnitOfWork 0 none)
    (fun _ => WorkOutcome.ret (some "w") (some "e5")) 1 (some "w")
    (some "e5") rfl rfl

/-- C6: on an instance with an active transaction, `Commit` and `Rollback`
always clear the transaction reference — on success and on failure alike —
and return the underlying settlement outcome to the caller
(`Except.ok (s.commitTx t)`, i.e. the error when the collaborator fails);
a subsequent `InTransaction` on the settled instance starts with a freshly
begun transaction. -/
theorem C6_settlement_clears (s : Store) (u : unitOfWork) (t : TxId)
    (n : Nat) (work : unitOfWork → WorkOutcome)
    (h : u.tx = some t) :
    (u.Commit s).2.1 = { u with tx := none } ∧
    (u.Rollback s).2.1 = { u with tx := none } ∧
    (u.Commit s).1 = Except.ok (s.commitTx t) ∧
    (u.Rollback s).1 = Except.ok (s.rollbackTx t) ∧
    (∀ t', s.beginTx n = Except.ok t' →
      (((u.Commit s).2.1).InTransaction s n work).2.2.head? =
        some (Event.beganTx t') ∧
      (((u.Rollback s).2.1).InTransaction s n work).2.2.head? =
        some (Event.beganTx t')) := by
  have hc : (u.Commit s).2.1 = { u with tx := none } ∧
      (u.Commit s).1 = Except.ok (s.commitTx t) := by
    cases hco : s.commitTx t <;> simp [unitOfWork.Commit, h, hco]
  have hr : (u.Rollback s).2.1 = { u with tx := none } ∧
      (u.Rollback s).1 = Except.ok (s.rollbackTx t) := by
    cases hro : s.rollbackTx t <;> simp [unitOfWork.Rollback, h, hro]
  refine ⟨hc.1, hr.1, hc.2, hr.2, ?_⟩
  intro t' hb
  rw [hc.1, hr.1]
  cases hw : work { { u with tx := none } with tx := some t' } with
  | panics p =>
    constructor <;> simp [unitOfWork.InTransaction, hb, hw]
  | ret v e =>
    cases e <;> constructor <;> simp [unitOfWork.InTransaction, hb, hw]

theorem C6_settlement_clears_witness :
    ((NewUnitOfWork 0 (some 9)).Commit s0).2.1 =
      { NewUnitOfWork 0 (some 9) with tx := none } ∧
    ((NewUnitOfWork 0 (some 9)).Rollback s0).2.1 =
      { NewUnitOfWork 0 (some 9) with tx := none } ∧
    ((NewUnitOfWork 0 (some 9)).Commit s0).1 =
      Except.ok (s0.commitTx 9) ∧
    ((NewUnitOfWork 0 (some 9)).Rollback s0).1 =
      Except.ok (s0.rollbackTx 9) ∧
    (∀ t', s0.beginTx 0 = Except.ok t' →
      ((((NewUnitOfWork 0 (some 9)).Commit s0).2.1).InTransaction s0 0
          (fun _ => WorkOutcome.ret none none)).2.2.head? =
        some (Event.beganTx t') ∧
      ((((NewUnitOfWork 0 (some 9)).Rollback s0).2.1).InTransaction s0 0
          (fun _ => WorkOutcome.ret none none)).2.2.head? =
        some (Event.beganTx t')) :=
  C6_settlement_clears s0 (NewUnitOfWork 0 (some 9)) 9 0
    (fun _ => WorkOutcome.ret none none) rfl

/-- C7: `Commit` and `Rollback` on an instance with no active transaction
panic with the fatal precondition message and leave the instance exactly
as it was (state unchanged, no collaborator call). -/
theorem C7_noTx_panic_idempotent (s : Store) (u : unitOfWork)
    (h : u.tx = none) :
    u.Commit s = (Except.error noTxMsg, u, []) ∧
    u.Rollback s = (Except.error noTxMsg, u, []) := by
  constructor <;> simp [unitOfWork.Commit, unitOfWork.Rollback, h]

theorem C7_noTx_panic_idempotent_witness :
    (NewUnitOfWork 3 none).Commit s0 =
      (Except.error noTxMsg, NewUnitOfWork 3 none, []) ∧
    (NewUnitOfWork 3 none).Rollback s0 =
      (Except.error noTxMsg, NewUnitOfWork 3 none, []) :=
  C7_noTx_panic_idempotent s0 (NewUnitOfWork 3 none) rfl

/-- C8: when the collaborator's named-execute at the dispatch target fails
with `e`, `MustNamedExec` returns (never panics: its result type has no
panic channel) the adapter whose `RowsAffected` and `LastInsertId` both
answer `(0, some e)` — count `0`, error non-nil — on every call; when it
succeeds with `r`, the native result `r` is returned unchanged. -/
theorem C8_adapter_contract (s : Store) (u : unitOfWork) (q : Qry)
    (a : Arg) :
    (∀ e, s.namedExec (dispatchTarget u) q a = Except.error e →
      (u.MustNamedExec s q a).1 =
        SqlResult.adapter { rowsAffected := 0, err := some e } ∧
      resultSet.RowsAffected { rowsAffected := 0, err := some e } =
        (0, some e) ∧
      resultSet.LastInsertId { rowsAffected := 0, err := some e } =
        (0, some e) ∧
      (some e : Option Error) ≠ none) ∧
    (∀ r, s.namedExec (dispatchTarget u) q a = Except.ok r →
      (u.MustNamedExec s q a).1 = SqlResult.native r) := by
  constructor
  · intro e he
    refine ⟨?_, rfl, rfl, by simp⟩
    cases htx : u.tx with
    | none =>
      rw [dispatchTarget] at he
      simp only [htx] at he
      simp [unitOfWork.MustNamedExec, htx, he]
    | some t =>
      rw [dispatchTarget] at he
      simp only [htx] at he
      simp [unitOfWork.MustNamedExec, htx, he]
  · intro r hr
    cases htx : u.tx with
    | none =>
      rw [dispatchTarget] at hr
      simp only [htx] at hr
      simp [unitOfWork.MustNamedExec, htx, hr]
    | some t =>
      rw [dispatchTarget] at hr
      simp only [htx] at hr
      simp [unitOfWork.MustNamedExec, htx, hr]

/-- C9: `InTransaction` on an instance already holding transaction `t0`
raises no failure for the re-entrant start: it silently begins `t1`,
runs the work function on the receiver with `tx = some t1`, and no
settlement (commit or rollback) of the abandoned `t0` ever appears in the
trace. -/
theorem C9_reentrant_overwrites (s : Store) (n : Nat) (u : unitOfWork)
    (work : unitOfWork → WorkOutcome) (t0 t1 : TxId) (v : Value)
    (e : Option Error)
    (h0 : u.tx = some t0) (hb : s.beginTx n = Except.ok t1)
    (hne : t0 ≠ t1)
    (hw : work { u with tx := some t1 } = WorkOutcome.ret v e) :
    (u.InTransaction s n work).1 = ITResult.ret v e ∧
    ((u.InTransaction s n work).2.2).head? = some (Event.beganTx t1) ∧
    (∀ out, Event.committedTx t0 out ∉ (u.InTransaction s n work).2.2) ∧
    (∀ out, Event.rolledBackTx t0 out ∉ (u.InTransaction s n work).2.2) := by
  cases e with
  | none =>
    have h : u.InTransaction s n work =
        (ITResult.ret v none, { u with tx := none },
          [Event.beganTx t1, Event.committedTx t1 (s.commitTx t1),
            Event.logged (s.commitTx t1)]) := by
      simp [unitOfWork.InTransaction, hb, hw]
    rw [h]
    refine ⟨rfl, rfl, ?_, ?_⟩ <;> intro out <;> simp [hne]
  | some err =>
    have h : u.InTransaction s n work =
        (ITResult.ret v (some err), { u with tx := none },
          [Event.beganTx t1, Event.rolledBackTx t1 (s.rollbackTx t1),
            Event.logged (s.rollbackTx t1)]) := by
      simp [unitOfWork.InTransaction, hb, hw]
    rw [h]
    refine ⟨rfl, rfl, ?_, ?_⟩ <;> intro out <;> simp [hne]

theorem C9_reentrant_overwrites_witness :
    ((NewUnitOfWork 0 (some 5)).InTransaction s0 0
        (fun _ => WorkOutcome.ret (some "r") none)).1 =
      ITResult.ret (some "r") none ∧
    (((NewUnitOfWork 0 (some 5)).InTransaction s0 0
        (fun _ => WorkOutcome.ret (some "r") none)).2.2).head? =
      some (Event.beganTx 1) ∧
    (∀ out, Event.committedTx 5 out ∉
      ((NewUnitOfWork 0 (some 5)).InTransaction s0 0
        (fun _ => WorkOutcome.ret (some "r") none)).2.2) ∧
    (∀ out, Event.rolledBackTx 5 out ∉
      ((NewUnitOfWork 0 (some 5)).InTransaction s0 0
        (fun _ => WorkOutcome.ret (some "r") none)).2.2) :=
  C9_reentrant_overwrites s0 0 (NewUnitOfWork 0 (some 5))
    (fun _ => WorkOutcome.ret (some "r") none) 5 1 (some "r") none rfl rfl
    (by decide) rfl

end Db
